import Mathlib

/-!
# HaikuWindowSurfaceData: the four surface-data callbacks

A shallow embedding of `src/solaris/native/sun/hawt/HaikuWindowSurfaceData.cpp`.

* `jint` and `int` values are mathematical integers; the only arithmetic the file
  performs (the two subtractions of `HaikuUnlock`) is wrapped to 32 bits.
* The `Drawable` object behind `operations->drawable` is external to the file.  No
  callback asks it the same question twice, so a call receives the answers the object
  gives during that call as a `Drawable` record, and every method call made on it is
  written to a trace of `DrawableCall`s.
* Each callback returns the operations record and the raster descriptor as it
  leaves them, together with that trace.
-/

namespace HaikuWindowSurfaceData

/-! ## Constants and records of `SurfaceData.h` / `Drawable.h` -/

/-- Modelled from the spec: `SurfaceData.h` is not part of the source tree; the
success sentinel a `Lock` callback returns. -/
def SD_SUCCESS : Int := 0

/-- Modelled from the spec: `SurfaceData.h` is not part of the source tree; the
failure sentinel a `Lock` callback returns. -/
def SD_FAILURE : Int := -1

/-- Modelled from the spec: `SurfaceData.h` is not part of the source tree; the
lock flag requesting read access. -/
def SD_LOCK_READ : Int := 1

/-- Modelled from the spec: `SurfaceData.h` is not part of the source tree; the
lock flag requesting write access. -/
def SD_LOCK_WRITE : Int := 2

/-- Modelled from the spec: `SurfaceData.h` is not part of the source tree; the
mask "read or write", the union of `SD_LOCK_READ` and `SD_LOCK_WRITE`. -/
def SD_LOCK_RD_WR : Int := 3

/-- The value a 32-bit signed `int` holds after an arithmetic result `v`. -/
def wrapInt (v : Int) : Int := (v + 2147483648) % 4294967296 - 2147483648

/-- The bounds rectangle of a raster descriptor (`SurfaceDataBounds`). -/
structure SurfaceDataBounds where
  x1 : Int
  y1 : Int
  x2 : Int
  y2 : Int
  deriving DecidableEq, Repr

/-- The raster descriptor (`SurfaceDataRasInfo`).  `rasBase` is an address, `0` being
`NULL`; `others` stands for the fields this file never names (colour tables,
private data). -/
structure SurfaceDataRasInfo where
  bounds : SurfaceDataBounds
  rasBase : Nat
  pixelBitOffset : Int
  pixelStride : Int
  scanStride : Int
  others : List Int
  deriving DecidableEq, Repr

/-- The argument of `Drawable::Invalidate`, built by `Rectangle(x, y, w, h)`. -/
structure Rectangle where
  x : Int
  y : Int
  width : Int
  height : Int
  deriving DecidableEq, Repr

/-- What the object behind `operations->drawable` answers during one callback: the
result of `Lock()`, of `IsValid()`, of `Width()`, `Height()`, `Bits()`,
`BytesPerPixel()` and `BytesPerRow()`. -/
structure Drawable where
  Lock : Bool
  IsValid : Bool
  Width : Int
  Height : Int
  Bits : Nat
  BytesPerPixel : Int
  BytesPerRow : Int
  deriving DecidableEq, Repr

/-- One method call made on the drawable.  `Lock` carries the value it returned. -/
inductive DrawableCall where
  | Lock (acquired : Bool)
  | Unlock
  | IsValid
  | Width
  | Height
  | Bits
  | BytesPerPixel
  | BytesPerRow
  | Invalidate (r : Rectangle)
  deriving DecidableEq, Repr

/-- The operations record (`HaikuWindowSurfaceDataOps`).  `drawable` is the handle
stored by `initOps`; the `sdOps` table of callbacks is fixed after `initOps` and is
left out. -/
structure HaikuWindowSurfaceDataOps where
  drawable : Nat
  x : Int
  y : Int
  width : Int
  height : Int
  lockflags : Int
  deriving DecidableEq, Repr

/-- What a `void` callback leaves behind: both records and the drawable calls made. -/
structure Effect where
  operations : HaikuWindowSurfaceDataOps
  rasInfo : SurfaceDataRasInfo
  calls : List DrawableCall
  deriving DecidableEq, Repr

/-- What `HaikuLock` leaves behind: its return value, both records and the drawable
calls made. -/
structure LockEffect where
  result : Int
  operations : HaikuWindowSurfaceDataOps
  rasInfo : SurfaceDataRasInfo
  calls : List DrawableCall
  deriving DecidableEq, Repr

/-! ## The callbacks -/

/-- The clamping step of `HaikuLock` (the four `if`s on `bounds`), run in order. -/
def clampBounds (width height : Int) (bounds : SurfaceDataBounds) : SurfaceDataBounds :=
  let bounds := if bounds.x1 < 0 then { bounds with x1 := 0 } else bounds
  let bounds := if bounds.y1 < 0 then { bounds with y1 := 0 } else bounds
  let bounds := if bounds.x2 > width then { bounds with x2 := width } else bounds
  let bounds := if bounds.y2 > height then { bounds with y2 := height } else bounds
  bounds

/-- `HaikuLock(env, ops, rasInfo, lockflags)`, with `drawable` the object behind
`operations->drawable`. -/
def HaikuLock (drawable : Drawable) (operations : HaikuWindowSurfaceDataOps)
    (rasInfo : SurfaceDataRasInfo) (lockflags : Int) : LockEffect :=
  if !drawable.Lock then
    ⟨SD_FAILURE, operations, rasInfo, [.Lock false]⟩
  else if Int.land lockflags SD_LOCK_RD_WR ≠ 0 then
    if drawable.IsValid then
      let width := drawable.Width
      let height := drawable.Height
      let bounds := clampBounds width height rasInfo.bounds
      if bounds.x2 > bounds.x1 ∧ bounds.y2 > bounds.y1 then
        ⟨SD_SUCCESS, { operations with lockflags := lockflags },
          { rasInfo with bounds := bounds }, [.Lock true, .IsValid, .Width, .Height]⟩
      else
        ⟨SD_FAILURE, operations, { rasInfo with bounds := bounds },
          [.Lock true, .IsValid, .Width, .Height, .Unlock]⟩
    else
      ⟨SD_FAILURE, operations, rasInfo, [.Lock true, .IsValid, .Unlock]⟩
  else
    ⟨SD_FAILURE, operations, rasInfo, [.Lock true, .Unlock]⟩

/-- `HaikuGetRasInfo(env, ops, rasInfo)`. -/
def HaikuGetRasInfo (drawable : Drawable) (operations : HaikuWindowSurfaceDataOps)
    (rasInfo : SurfaceDataRasInfo) : Effect :=
  if drawable.IsValid ∧ Int.land operations.lockflags SD_LOCK_RD_WR ≠ 0 then
    ⟨operations,
      { rasInfo with
        rasBase := drawable.Bits
        pixelStride := drawable.BytesPerPixel
        pixelBitOffset := 0
        scanStride := drawable.BytesPerRow },
      [.IsValid, .Bits, .BytesPerPixel, .BytesPerRow]⟩
  else
    ⟨operations,
      { rasInfo with rasBase := 0, pixelStride := 0, pixelBitOffset := 0, scanStride := 0 },
      [.IsValid]⟩

/-- `HaikuRelease(env, ops, rasInfo)`: the empty body. -/
def HaikuRelease (operations : HaikuWindowSurfaceDataOps) (rasInfo : SurfaceDataRasInfo) :
    Effect :=
  ⟨operations, rasInfo, []⟩

/-- `HaikuUnlock(env, ops, rasInfo)`. -/
def HaikuUnlock (operations : HaikuWindowSurfaceDataOps) (rasInfo : SurfaceDataRasInfo) :
    Effect :=
  if Int.land operations.lockflags SD_LOCK_WRITE ≠ 0 then
    let x := rasInfo.bounds.x1
    let y := rasInfo.bounds.y1
    let w := wrapInt (rasInfo.bounds.x2 - x)
    let h := wrapInt (rasInfo.bounds.y2 - y)
    ⟨operations, rasInfo, [.Unlock, .Invalidate ⟨x, y, w, h⟩]⟩
  else
    ⟨operations, rasInfo, [.Unlock]⟩

/-! ## Sequences of callbacks on one operations record -/

/-- The operations record of a surface together with the raster descriptor the
pipeline currently passes to its callbacks. -/
structure SurfaceState where
  operations : HaikuWindowSurfaceDataOps
  rasInfo : SurfaceDataRasInfo
  deriving DecidableEq, Repr

/-- One event in the life of a surface: a callback invoked through the `sdOps` table
(with the drawable's answers during that call), or the pipeline writing the raster
descriptor it passes next. -/
inductive Callback where
  | Lock (drawable : Drawable) (lockflags : Int)
  | GetRasInfo (drawable : Drawable)
  | Release
  | Unlock
  | Pipeline (rasInfo : SurfaceDataRasInfo)
  deriving DecidableEq, Repr

/-- The records after one event. -/
def step (s : SurfaceState) : Callback → SurfaceState
  | .Lock drawable lockflags =>
      let r := HaikuLock drawable s.operations s.rasInfo lockflags
      ⟨r.operations, r.rasInfo⟩
  | .GetRasInfo drawable =>
      let r := HaikuGetRasInfo drawable s.operations s.rasInfo
      ⟨r.operations, r.rasInfo⟩
  | .Release =>
      let r := HaikuRelease s.operations s.rasInfo
      ⟨r.operations, r.rasInfo⟩
  | .Unlock =>
      let r := HaikuUnlock s.operations s.rasInfo
      ⟨r.operations, r.rasInfo⟩
  | .Pipeline rasInfo => ⟨s.operations, rasInfo⟩

/-- The records after a sequence of events. -/
def run (s : SurfaceState) (cs : List Callback) : SurfaceState :=
  cs.foldl step s

/-- Whether the event is a `HaikuLock` call that returns `SD_SUCCESS` in state `s`. -/
def grants (s : SurfaceState) : Callback → Bool
  | .Lock drawable lockflags =>
      decide ((HaikuLock drawable s.operations s.rasInfo lockflags).result = SD_SUCCESS)
  | _ => false

/-- Whether no `HaikuLock` call of the sequence, run from `s`, returns `SD_SUCCESS`. -/
def noGrant : SurfaceState → List Callback → Bool
  | _, [] => true
  | s, c :: cs => !grants s c && noGrant (step s c) cs

/-- Number of `Drawable::Unlock()` calls in a trace. -/
def unlockCount (calls : List DrawableCall) : Nat :=
  calls.count .Unlock

/-- Number of `Drawable::Lock()` calls in a trace that acquired the lock. -/
def acquireCount (calls : List DrawableCall) : Nat :=
  calls.count (.Lock true)

/-- Whether the trace leaves the drawable lock held: one more acquisition than
releases. -/
def lockHeld (calls : List DrawableCall) : Prop :=
  acquireCount calls = unlockCount calls + 1

/-- The rectangles passed to `Drawable::Invalidate`, in call order. -/
def invalidated : List DrawableCall → List Rectangle
  | [] => []
  | .Invalidate r :: cs => r :: invalidated cs
  | _ :: cs => invalidated cs

/-! ## Concrete inputs used by the worked scenarios -/

/-- A lockable, valid drawable of the given size, 4 bytes per pixel, pixels at
address `4096`. -/
def sampleDrawable (width height : Int) : Drawable :=
  ⟨true, true, width, height, 4096, 4, 4 * width⟩

/-- An operations record as `initOps` leaves it: a handle and zeroed fields. -/
def freshOps : HaikuWindowSurfaceDataOps :=
  ⟨1, 0, 0, 0, 0, 0⟩

/-- A raster descriptor holding just the requested bounds. -/
def requestRasInfo (x1 y1 x2 y2 : Int) : SurfaceDataRasInfo :=
  ⟨⟨x1, y1, x2, y2⟩, 0, 0, 0, 0, []⟩

/-- The fresh operations record after a lock granted with `lockflags`. -/
def grantedOps (lockflags : Int) : HaikuWindowSurfaceDataOps :=
  { freshOps with lockflags := lockflags }

/-! ## Helper lemmas -/

theorem clampBounds_eq (width height : Int) (b : SurfaceDataBounds) :
    clampBounds width height b =
      ⟨max b.x1 0, max b.y1 0, min b.x2 width, min b.y2 height⟩ := by
  obtain ⟨x1, y1, x2, y2⟩ := b
  simp only [clampBounds]
  split_ifs <;> simp only [SurfaceDataBounds.mk.injEq] at * <;> omega

theorem SD_SUCCESS_ne_SD_FAILURE : SD_SUCCESS ≠ SD_FAILURE := by decide

theorem HaikuLock_bounds_of_clamping (drawable : Drawable)
    (operations : HaikuWindowSurfaceDataOps) (rasInfo : SurfaceDataRasInfo) (lockflags : Int)
    (hl : drawable.Lock = true) (hf : Int.land lockflags SD_LOCK_RD_WR ≠ 0)
    (hv : drawable.IsValid = true) :
    (HaikuLock drawable operations rasInfo lockflags).rasInfo.bounds =
      ⟨max rasInfo.bounds.x1 0, max rasInfo.bounds.y1 0,
        min rasInfo.bounds.x2 drawable.Width, min rasInfo.bounds.y2 drawable.Height⟩ := by
  simp only [HaikuLock, hl, hf, hv, clampBounds_eq]
  split_ifs <;> simp_all

theorem HaikuLock_operations_of_failure (drawable : Drawable)
    (operations : HaikuWindowSurfaceDataOps) (rasInfo : SurfaceDataRasInfo) (lockflags : Int)
    (h : (HaikuLock drawable operations rasInfo lockflags).result ≠ SD_SUCCESS) :
    (HaikuLock drawable operations rasInfo lockflags).operations = operations := by
  revert h
  simp only [HaikuLock]
  split_ifs <;> simp

theorem step_operations_of_not_grants (s : SurfaceState) (c : Callback)
    (h : grants s c = false) : (step s c).operations = s.operations := by
  cases c with
  | Lock drawable lockflags =>
      simp only [grants, decide_eq_false_iff_not] at h
      exact HaikuLock_operations_of_failure drawable _ _ lockflags h
  | GetRasInfo drawable =>
      simp only [step, HaikuGetRasInfo]
      split_ifs <;> rfl
  | Release => rfl
  | Unlock =>
      simp only [step, HaikuUnlock]
      split_ifs <;> rfl
  | Pipeline rasInfo => rfl

theorem run_operations_of_noGrant (cs : List Callback) :
    ∀ s : SurfaceState, noGrant s cs = true → (run s cs).operations = s.operations := by
  induction cs with
  | nil => intro s _; rfl
  | cons c cs ih =>
      intro s h
      simp only [noGrant, Bool.and_eq_true, Bool.not_eq_true'] at h
      have h1 := ih (step s c) h.2
      simp only [run, List.foldl_cons] at h1 ⊢
      rw [h1, step_operations_of_not_grants s c h.1]

theorem run_append (s : SurfaceState) (cs ds : List Callback) :
    run s (cs ++ ds) = run (run s cs) ds := by
  simp [run, List.foldl_append]

theorem step_GetRasInfo_null (t : SurfaceState) (drawable : Drawable)
    (h : drawable.IsValid = false ∨ Int.land t.operations.lockflags SD_LOCK_RD_WR = 0) :
    (step t (.GetRasInfo drawable)).rasInfo.rasBase = 0 ∧
    (step t (.GetRasInfo drawable)).rasInfo.pixelStride = 0 ∧
    (step t (.GetRasInfo drawable)).rasInfo.pixelBitOffset = 0 ∧
    (step t (.GetRasInfo drawable)).rasInfo.scanStride = 0 := by
  simp only [step, HaikuGetRasInfo]
  split_ifs with h2
  · rcases h with h | h
    · rw [h] at h2; exact absurd h2.1 (by decide)
    · exact absurd h h2.2
  · exact ⟨rfl, rfl, rfl, rfl⟩

/-! ## Claims about `HaikuLock` -/

/-- C1: `HaikuLock` returns `SD_SUCCESS` exactly when `Drawable::Lock()` succeeded, the
flags have a read or write bit, the drawable is valid and the clamped rectangle
`(max x1 0, max y1 0, min x2 W, min y2 H)` is non-empty; on success that rectangle is
what is left in `rasInfo->bounds` and the requested flags are recorded; every other
call returns `SD_FAILURE`.  A 100x100 drawable with bounds `(-5,-5,50,50)` and
read+write succeeds with bounds `(0,0,50,50)`. -/
theorem HaikuLock_success_iff (drawable : Drawable)
    (operations : HaikuWindowSurfaceDataOps) (rasInfo : SurfaceDataRasInfo) (lockflags : Int) :
    ((HaikuLock drawable operations rasInfo lockflags).result = SD_SUCCESS ↔
      (drawable.Lock = true ∧ Int.land lockflags SD_LOCK_RD_WR ≠ 0 ∧
        drawable.IsValid = true ∧
        max rasInfo.bounds.x1 0 < min rasInfo.bounds.x2 drawable.Width ∧
        max rasInfo.bounds.y1 0 < min rasInfo.bounds.y2 drawable.Height)) ∧
    ((HaikuLock drawable operations rasInfo lockflags).result = SD_SUCCESS →
      (HaikuLock drawable operations rasInfo lockflags).rasInfo.bounds =
        ⟨max rasInfo.bounds.x1 0, max rasInfo.bounds.y1 0,
          min rasInfo.bounds.x2 drawable.Width, min rasInfo.bounds.y2 drawable.Height⟩ ∧
      (HaikuLock drawable operations rasInfo lockflags).operations.lockflags = lockflags) ∧
    ((HaikuLock drawable operations rasInfo lockflags).result ≠ SD_SUCCESS →
      (HaikuLock drawable operations rasInfo lockflags).result = SD_FAILURE) ∧
    (HaikuLock (sampleDrawable 100 100) freshOps (requestRasInfo (-5) (-5) 50 50)
        SD_LOCK_RD_WR).result = SD_SUCCESS ∧
    (HaikuLock (sampleDrawable 100 100) freshOps (requestRasInfo (-5) (-5) 50 50)
        SD_LOCK_RD_WR).rasInfo.bounds = ⟨0, 0, 50, 50⟩ := by
  refine ⟨?_, ?_, ?_, by decide, by decide⟩
  · simp only [HaikuLock, clampBounds_eq]
    split_ifs <;> simp_all [SD_SUCCESS, SD_FAILURE]
  · simp only [HaikuLock, clampBounds_eq]
    split_ifs <;> simp_all [SD_SUCCESS, SD_FAILURE]
  · simp only [HaikuLock, clampBounds_eq]
    split_ifs <;> simp_all [SD_SUCCESS, SD_FAILURE]

/-- Witness of C1 on the spec's scenario: the success implication applied to the
100x100 drawable. -/
theorem HaikuLock_success_iff_witness :
    (HaikuLock (sampleDrawable 100 100) freshOps (requestRasInfo (-5) (-5) 50 50)
        3).rasInfo.bounds = ⟨0, 0, 50, 50⟩ ∧
    (HaikuLock (sampleDrawable 100 100) freshOps (requestRasInfo (-5) (-5) 50 50)
        3).operations.lockflags = 3 :=
  (HaikuLock_success_iff (sampleDrawable 100 100) freshOps
    (requestRasInfo (-5) (-5) 50 50) 3).2.1 (by decide)

/-- C2 (as stated) fails: on a 10x10 drawable the request `(20,20,30,30)` leaves the
bounds `(20,20,10,10)`, not `(10,10,10,10)`, and `x1 ≤ x2`, `y1 ≤ y2` do not hold. -/
theorem HaikuLock_clamp_ordered_counterexample :
    (sampleDrawable 10 10).Lock = true ∧ Int.land SD_LOCK_RD_WR SD_LOCK_RD_WR ≠ 0 ∧
    (sampleDrawable 10 10).IsValid = true ∧
    (HaikuLock (sampleDrawable 10 10) freshOps (requestRasInfo 20 20 30 30)
        SD_LOCK_RD_WR).rasInfo.bounds = ⟨20, 20, 10, 10⟩ ∧
    (HaikuLock (sampleDrawable 10 10) freshOps (requestRasInfo 20 20 30 30)
        SD_LOCK_RD_WR).rasInfo.bounds ≠ ⟨10, 10, 10, 10⟩ ∧
    ¬ ((HaikuLock (sampleDrawable 10 10) freshOps (requestRasInfo 20 20 30 30)
          SD_LOCK_RD_WR).rasInfo.bounds.x1 ≤
        (HaikuLock (sampleDrawable 10 10) freshOps (requestRasInfo 20 20 30 30)
          SD_LOCK_RD_WR).rasInfo.bounds.x2) ∧
    ¬ ((HaikuLock (sampleDrawable 10 10) freshOps (requestRasInfo 20 20 30 30)
          SD_LOCK_RD_WR).rasInfo.bounds.y1 ≤
        (HaikuLock (sampleDrawable 10 10) freshOps (requestRasInfo 20 20 30 30)
          SD_LOCK_RD_WR).rasInfo.bounds.y2) := by
  decide

/-- C2 (amended): whenever `HaikuLock` performs its clamping step, the bounds it leaves
are `(max x1 0, max y1 0, min x2 W, min y2 H)`, so `0 ≤ x1'`, `x2' ≤ W`, `0 ≤ y1'` and
`y2' ≤ H`; the near edges are not clamped to the size, and `x1' ≤ x2'` holds exactly
when `x1 ≤ x2`, `x1 ≤ W`, `0 ≤ x2` and `0 ≤ W` (likewise for `y` and `H`). -/
theorem HaikuLock_clamp_range (drawable : Drawable)
    (operations : HaikuWindowSurfaceDataOps) (rasInfo : SurfaceDataRasInfo) (lockflags : Int)
    (hl : drawable.Lock = true) (hf : Int.land lockflags SD_LOCK_RD_WR ≠ 0)
    (hv : drawable.IsValid = true) :
    (HaikuLock drawable operations rasInfo lockflags).rasInfo.bounds =
      ⟨max rasInfo.bounds.x1 0, max rasInfo.bounds.y1 0,
        min rasInfo.bounds.x2 drawable.Width, min rasInfo.bounds.y2 drawable.Height⟩ ∧
    0 ≤ (HaikuLock drawable operations rasInfo lockflags).rasInfo.bounds.x1 ∧
    (HaikuLock drawable operations rasInfo lockflags).rasInfo.bounds.x2 ≤ drawable.Width ∧
    0 ≤ (HaikuLock drawable operations rasInfo lockflags).rasInfo.bounds.y1 ∧
    (HaikuLock drawable operations rasInfo lockflags).rasInfo.bounds.y2 ≤ drawable.Height ∧
    ((HaikuLock drawable operations rasInfo lockflags).rasInfo.bounds.x1 ≤
        (HaikuLock drawable operations rasInfo lockflags).rasInfo.bounds.x2 ↔
      (rasInfo.bounds.x1 ≤ rasInfo.bounds.x2 ∧ rasInfo.bounds.x1 ≤ drawable.Width ∧
        0 ≤ rasInfo.bounds.x2 ∧ 0 ≤ drawable.Width)) ∧
    ((HaikuLock drawable operations rasInfo lockflags).rasInfo.bounds.y1 ≤
        (HaikuLock drawable operations rasInfo lockflags).rasInfo.bounds.y2 ↔
      (rasInfo.bounds.y1 ≤ rasInfo.bounds.y2 ∧ rasInfo.bounds.y1 ≤ drawable.Height ∧
        0 ≤ rasInfo.bounds.y2 ∧ 0 ≤ drawable.Height)) := by
  rw [HaikuLock_bounds_of_clamping drawable operations rasInfo lockflags hl hf hv]
  refine ⟨rfl, ?_, ?_, ?_, ?_, ?_, ?_⟩ <;> dsimp only <;> omega

/-- Witness of C2 (amended) on the spec's scenario: a 10x10 drawable and the request
`(20,20,30,30)`. -/
theorem HaikuLock_clamp_range_witness :
    (HaikuLock (sampleDrawable 10 10) freshOps (requestRasInfo 20 20 30 30)
        SD_LOCK_RD_WR).rasInfo.bounds = ⟨20, 20, 10, 10⟩ :=
  (HaikuLock_clamp_range (sampleDrawable 10 10) freshOps (requestRasInfo 20 20 30 30)
    SD_LOCK_RD_WR (by decide) (by decide) (by decide)).1

/-- C8: the bounds `HaikuLock` leaves never exceed the requested ones, on every path
(success or failure, clamped or not): `x1' ≥ x1`, `y1' ≥ y1`, `x2' ≤ x2`, `y2' ≤ y2`.
The clamping step is idempotent for a fixed size, and calling `HaikuLock` again on
the records it left, with the same drawable answers and flags, leaves the bounds
unchanged. -/
theorem HaikuLock_never_expands (drawable : Drawable)
    (operations : HaikuWindowSurfaceDataOps) (rasInfo : SurfaceDataRasInfo) (lockflags : Int) :
    rasInfo.bounds.x1 ≤ (HaikuLock drawable operations rasInfo lockflags).rasInfo.bounds.x1 ∧
    rasInfo.bounds.y1 ≤ (HaikuLock drawable operations rasInfo lockflags).rasInfo.bounds.y1 ∧
    (HaikuLock drawable operations rasInfo lockflags).rasInfo.bounds.x2 ≤ rasInfo.bounds.x2 ∧
    (HaikuLock drawable operations rasInfo lockflags).rasInfo.bounds.y2 ≤ rasInfo.bounds.y2 ∧
    clampBounds drawable.Width drawable.Height
        (clampBounds drawable.Width drawable.Height rasInfo.bounds) =
      clampBounds drawable.Width drawable.Height rasInfo.bounds ∧
    (HaikuLock drawable (HaikuLock drawable operations rasInfo lockflags).operations
        (HaikuLock drawable operations rasInfo lockflags).rasInfo lockflags).rasInfo.bounds =
      (HaikuLock drawable operations rasInfo lockflags).rasInfo.bounds := by
  have hidem : clampBounds drawable.Width drawable.Height
        (clampBounds drawable.Width drawable.Height rasInfo.bounds) =
      clampBounds drawable.Width drawable.Height rasInfo.bounds := by
    simp only [clampBounds_eq, SurfaceDataBounds.mk.injEq]
    omega
  refine ⟨?_, ?_, ?_, ?_, hidem, ?_⟩
  · simp only [HaikuLock, clampBounds_eq]
    split_ifs <;> dsimp only <;> omega
  · simp only [HaikuLock, clampBounds_eq]
    split_ifs <;> dsimp only <;> omega
  · simp only [HaikuLock, clampBounds_eq]
    split_ifs <;> dsimp only <;> omega
  · simp only [HaikuLock, clampBounds_eq]
    split_ifs <;> dsimp only <;> omega
  · by_cases hl : drawable.Lock = true
    · by_cases hf : Int.land lockflags SD_LOCK_RD_WR ≠ 0
      · by_cases hv : drawable.IsValid = true
        · rw [HaikuLock_bounds_of_clamping drawable _ _ lockflags hl hf hv,
            HaikuLock_bounds_of_clamping drawable _ _ lockflags hl hf hv]
          simp only [SurfaceDataBounds.mk.injEq]
          omega
        · simp [HaikuLock, hl, hf, hv]
      · simp [HaikuLock, hl, hf]
    · simp [HaikuLock, hl]

/-- C9: whenever `HaikuLock` returns `SD_SUCCESS`, the bounds it leaves are a non-empty
rectangle inside the drawable: `0 ≤ x1' < x2' ≤ W` and `0 ≤ y1' < y2' ≤ H`; hence
success needs `0 < W` and `0 < H`. -/
theorem HaikuLock_success_inside (drawable : Drawable)
    (operations : HaikuWindowSurfaceDataOps) (rasInfo : SurfaceDataRasInfo) (lockflags : Int)
    (h : (HaikuLock drawable operations rasInfo lockflags).result = SD_SUCCESS) :
    0 ≤ (HaikuLock drawable operations rasInfo lockflags).rasInfo.bounds.x1 ∧
    (HaikuLock drawable operations rasInfo lockflags).rasInfo.bounds.x1 <
      (HaikuLock drawable operations rasInfo lockflags).rasInfo.bounds.x2 ∧
    (HaikuLock drawable operations rasInfo lockflags).rasInfo.bounds.x2 ≤ drawable.Width ∧
    0 ≤ (HaikuLock drawable operations rasInfo lockflags).rasInfo.bounds.y1 ∧
    (HaikuLock drawable operations rasInfo lockflags).rasInfo.bounds.y1 <
      (HaikuLock drawable operations rasInfo lockflags).rasInfo.bounds.y2 ∧
    (HaikuLock drawable operations rasInfo lockflags).rasInfo.bounds.y2 ≤ drawable.Height ∧
    0 < drawable.Width ∧ 0 < drawable.Height := by
  revert h
  simp only [HaikuLock, clampBounds_eq]
  split_ifs with h1 h2 h3 h4
  · intro h; exact absurd h.symm SD_SUCCESS_ne_SD_FAILURE
  · intro _
    dsimp only at h4 ⊢
    omega
  · intro h; exact absurd h.symm SD_SUCCESS_ne_SD_FAILURE
  · intro h; exact absurd h.symm SD_SUCCESS_ne_SD_FAILURE
  · intro h; exact absurd h.symm SD_SUCCESS_ne_SD_FAILURE

/-- Witness of C9: the successful lock of `(-5,-5,50,50)` on a 100x100 drawable. -/
theorem HaikuLock_success_inside_witness :
    (HaikuLock (sampleDrawable 100 100) freshOps (requestRasInfo (-5) (-5) 50 50)
        SD_LOCK_READ).result = SD_SUCCESS ∧
    0 < (sampleDrawable 100 100).Width ∧ 0 < (sampleDrawable 100 100).Height :=
  ⟨by decide,
    (HaikuLock_success_inside (sampleDrawable 100 100) freshOps
      (requestRasInfo (-5) (-5) 50 50) SD_LOCK_READ (by decide)).2.2.2.2.2.2⟩

/-- C4: `HaikuLock` never leaks the drawable lock.  A call that returns `SD_FAILURE`
after `Drawable::Lock()` succeeded calls `Drawable::Unlock()` exactly once, as its last
drawable call; a call whose `Lock()` failed makes no `Unlock()` call; a call that
returns `SD_SUCCESS` makes no `Unlock()` call; `Lock()` is called exactly once, first;
so the lock is held on return exactly when the result is `SD_SUCCESS`.  The three
failures after an acquired lock (invalid drawable, flags without read or write, empty
clamped rectangle) are spelled out. -/
theorem HaikuLock_no_leak (drawable : Drawable)
    (operations : HaikuWindowSurfaceDataOps) (rasInfo : SurfaceDataRasInfo) (lockflags : Int) :
    ((HaikuLock drawable operations rasInfo lockflags).result = SD_FAILURE →
      drawable.Lock = true →
      unlockCount (HaikuLock drawable operations rasInfo lockflags).calls = 1 ∧
      (HaikuLock drawable operations rasInfo lockflags).calls.getLast? = some .Unlock) ∧
    (drawable.Lock = false →
      unlockCount (HaikuLock drawable operations rasInfo lockflags).calls = 0 ∧
      (HaikuLock drawable operations rasInfo lockflags).result = SD_FAILURE) ∧
    ((HaikuLock drawable operations rasInfo lockflags).result = SD_SUCCESS →
      unlockCount (HaikuLock drawable operations rasInfo lockflags).calls = 0) ∧
    (HaikuLock drawable operations rasInfo lockflags).calls.head? =
      some (.Lock drawable.Lock) ∧
    acquireCount (HaikuLock drawable operations rasInfo lockflags).calls =
      (if drawable.Lock then 1 else 0) ∧
    (lockHeld (HaikuLock drawable operations rasInfo lockflags).calls ↔
      (HaikuLock drawable operations rasInfo lockflags).result = SD_SUCCESS) ∧
    (drawable.Lock = true → drawable.IsValid = false →
      (HaikuLock drawable operations rasInfo lockflags).result = SD_FAILURE ∧
      unlockCount (HaikuLock drawable operations rasInfo lockflags).calls = 1) ∧
    (drawable.Lock = true → Int.land lockflags SD_LOCK_RD_WR = 0 →
      (HaikuLock drawable operations rasInfo lockflags).result = SD_FAILURE ∧
      unlockCount (HaikuLock drawable operations rasInfo lockflags).calls = 1) ∧
    (drawable.Lock = true →
      ¬ (max rasInfo.bounds.x1 0 < min rasInfo.bounds.x2 drawable.Width ∧
        max rasInfo.bounds.y1 0 < min rasInfo.bounds.y2 drawable.Height) →
      (HaikuLock drawable operations rasInfo lockflags).result = SD_FAILURE ∧
      unlockCount (HaikuLock drawable operations rasInfo lockflags).calls = 1) := by
  simp only [HaikuLock, lockHeld, acquireCount, unlockCount, clampBounds_eq]
  split_ifs with h1 h2 h3 h4 <;>
    simp_all [SD_SUCCESS, SD_FAILURE]

/-- Witness of C4: the empty clamped rectangle of the 10x10 scenario, the lock released
once. -/
theorem HaikuLock_no_leak_witness :
    unlockCount (HaikuLock (sampleDrawable 10 10) freshOps (requestRasInfo 20 20 30 30)
        SD_LOCK_RD_WR).calls = 1 ∧
    (HaikuLock (sampleDrawable 10 10) freshOps (requestRasInfo 20 20 30 30)
        SD_LOCK_RD_WR).calls.getLast? = some .Unlock :=
  (HaikuLock_no_leak (sampleDrawable 10 10) freshOps (requestRasInfo 20 20 30 30)
    SD_LOCK_RD_WR).1 (by decide) (by decide)

/-! ## Claims about `HaikuUnlock` -/

/-- C5: the trace of drawable calls of one `HaikuUnlock` contains exactly one
`Drawable::Unlock()`, it is the first call of the trace, and any
`Drawable::Invalidate()` call sits at a strictly later position. -/
theorem HaikuUnlock_unlocks_first (operations : HaikuWindowSurfaceDataOps)
    (rasInfo : SurfaceDataRasInfo) :
    unlockCount (HaikuUnlock operations rasInfo).calls = 1 ∧
    (HaikuUnlock operations rasInfo).calls.head? = some .Unlock ∧
    (∀ (i j : Nat) (r : Rectangle),
      (HaikuUnlock operations rasInfo).calls.get? i = some (.Invalidate r) →
      (HaikuUnlock operations rasInfo).calls.get? j = some .Unlock → j < i) := by
  simp only [HaikuUnlock, unlockCount]
  split_ifs with h
  · refine ⟨by simp, by simp, ?_⟩
    intro i j r hi hj
    match i, j with
    | 0, _ => simp at hi
    | _ + 1, 0 => omega
    | _, 1 => simp at hj
    | _, _ + 2 => simp at hj
  · refine ⟨by simp, by simp, ?_⟩
    intro i j r hi hj
    match i with
    | 0 => simp at hi
    | _ + 1 => simp at hi

/-- Witness of C5: a write lock of `(0,0,10,10)`; `Unlock` is call 0 and `Invalidate` is
call 1. -/
theorem HaikuUnlock_unlocks_first_witness :
    (HaikuUnlock (grantedOps SD_LOCK_WRITE) (requestRasInfo 0 0 10 10)).calls.get? 1 =
      some (.Invalidate ⟨0, 0, 10, 10⟩) ∧
    (HaikuUnlock (grantedOps SD_LOCK_WRITE) (requestRasInfo 0 0 10 10)).calls.get? 0 =
      some .Unlock ∧
    0 < 1 :=
  ⟨by decide, by decide,
    (HaikuUnlock_unlocks_first (grantedOps SD_LOCK_WRITE) (requestRasInfo 0 0 10 10)).2.2
      1 0 ⟨0, 0, 10, 10⟩ (by decide) (by decide)⟩

/-- C6: `HaikuUnlock` calls `Drawable::Invalidate` exactly when the recorded flags have
the write bit, and then exactly once, with the rectangle of origin `(x1, y1)`, width
`x2 - x1` and height `y2 - y1` of the bounds passed in (the differences being `int`
subtractions, equal to the exact ones whenever those fit an `int`); recorded read-only
flags give no `Invalidate` call.  Write flags with bounds `(0,0,10,10)` give the single
rectangle `(0,0,10,10)`. -/
theorem HaikuUnlock_invalidate (operations : HaikuWindowSurfaceDataOps)
    (rasInfo : SurfaceDataRasInfo) :
    (invalidated (HaikuUnlock operations rasInfo).calls ≠ [] ↔
      Int.land operations.lockflags SD_LOCK_WRITE ≠ 0) ∧
    (Int.land operations.lockflags SD_LOCK_WRITE ≠ 0 →
      invalidated (HaikuUnlock operations rasInfo).calls =
        [⟨rasInfo.bounds.x1, rasInfo.bounds.y1,
          wrapInt (rasInfo.bounds.x2 - rasInfo.bounds.x1),
          wrapInt (rasInfo.bounds.y2 - rasInfo.bounds.y1)⟩]) ∧
    (Int.land operations.lockflags SD_LOCK_WRITE ≠ 0 →
      -2147483648 ≤ rasInfo.bounds.x2 - rasInfo.bounds.x1 →
      rasInfo.bounds.x2 - rasInfo.bounds.x1 < 2147483648 →
      -2147483648 ≤ rasInfo.bounds.y2 - rasInfo.bounds.y1 →
      rasInfo.bounds.y2 - rasInfo.bounds.y1 < 2147483648 →
      invalidated (HaikuUnlock operations rasInfo).calls =
        [⟨rasInfo.bounds.x1, rasInfo.bounds.y1,
          rasInfo.bounds.x2 - rasInfo.bounds.x1,
          rasInfo.bounds.y2 - rasInfo.bounds.y1⟩]) ∧
    (Int.land operations.lockflags SD_LOCK_WRITE = 0 →
      invalidated (HaikuUnlock operations rasInfo).calls = []) ∧
    (operations.lockflags = SD_LOCK_READ →
      invalidated (HaikuUnlock operations rasInfo).calls = []) ∧
    invalidated (HaikuUnlock (grantedOps SD_LOCK_WRITE) (requestRasInfo 0 0 10 10)).calls =
      [⟨0, 0, 10, 10⟩] := by
  refine ⟨?_, ?_, ?_, ?_, ?_, by decide⟩
  · simp only [HaikuUnlock]
    split_ifs with h <;> simp [invalidated, h]
  · intro h
    simp [HaikuUnlock, h, invalidated]
  · intro h hx1 hx2 hy1 hy2
    have hx : wrapInt (rasInfo.bounds.x2 - rasInfo.bounds.x1) =
        rasInfo.bounds.x2 - rasInfo.bounds.x1 := by
      unfold wrapInt; omega
    have hy : wrapInt (rasInfo.bounds.y2 - rasInfo.bounds.y1) =
        rasInfo.bounds.y2 - rasInfo.bounds.y1 := by
      unfold wrapInt; omega
    simp [HaikuUnlock, h, invalidated, hx, hy]
  · intro h
    simp [HaikuUnlock, h, invalidated]
  · intro h
    have h0 : Int.land operations.lockflags SD_LOCK_WRITE = 0 := by
      rw [h]; decide
    simp [HaikuUnlock, h0, invalidated]

/-- Witness of C6: the spec's scenario, a granted write lock unlocked with bounds
`(0,0,10,10)`. -/
theorem HaikuUnlock_invalidate_witness :
    invalidated (HaikuUnlock (grantedOps SD_LOCK_WRITE) (requestRasInfo 0 0 10 10)).calls =
      [⟨0, 0, 10 - 0, 10 - 0⟩] :=
  (HaikuUnlock_invalidate (grantedOps SD_LOCK_WRITE) (requestRasInfo 0 0 10 10)).2.2.1
    (by decide) (by decide) (by decide) (by decide) (by decide)

/-! ## Claims about `HaikuGetRasInfo` -/

/-- C7: `HaikuGetRasInfo` sets `(rasBase, pixelStride, pixelBitOffset, scanStride)` to
`(Bits(), BytesPerPixel(), 0, BytesPerRow())` when the drawable is valid and the
recorded flags have a read or write bit, and to `(NULL, 0, 0, 0)` otherwise; the bounds
and every other field of `rasInfo`, and the operations record, are left as they
were.  `Bits()` is asked of the drawable exactly in the first case. -/
theorem HaikuGetRasInfo_fields (drawable : Drawable)
    (operations : HaikuWindowSurfaceDataOps) (rasInfo : SurfaceDataRasInfo) :
    ((drawable.IsValid = true ∧ Int.land operations.lockflags SD_LOCK_RD_WR ≠ 0) →
      (HaikuGetRasInfo drawable operations rasInfo).rasInfo.rasBase = drawable.Bits ∧
      (HaikuGetRasInfo drawable operations rasInfo).rasInfo.pixelStride =
        drawable.BytesPerPixel ∧
      (HaikuGetRasInfo drawable operations rasInfo).rasInfo.pixelBitOffset = 0 ∧
      (HaikuGetRasInfo drawable operations rasInfo).rasInfo.scanStride =
        drawable.BytesPerRow) ∧
    (¬ (drawable.IsValid = true ∧ Int.land operations.lockflags SD_LOCK_RD_WR ≠ 0) →
      (HaikuGetRasInfo drawable operations rasInfo).rasInfo.rasBase = 0 ∧
      (HaikuGetRasInfo drawable operations rasInfo).rasInfo.pixelStride = 0 ∧
      (HaikuGetRasInfo drawable operations rasInfo).rasInfo.pixelBitOffset = 0 ∧
      (HaikuGetRasInfo drawable operations rasInfo).rasInfo.scanStride = 0) ∧
    (HaikuGetRasInfo drawable operations rasInfo).rasInfo.bounds = rasInfo.bounds ∧
    (HaikuGetRasInfo drawable operations rasInfo).rasInfo.others = rasInfo.others ∧
    (HaikuGetRasInfo drawable operations rasInfo).operations = operations ∧
    (DrawableCall.Bits ∈ (HaikuGetRasInfo drawable operations rasInfo).calls ↔
      (drawable.IsValid = true ∧ Int.land operations.lockflags SD_LOCK_RD_WR ≠ 0)) := by
  simp only [HaikuGetRasInfo]
  split_ifs with h
  · exact ⟨fun _ => ⟨rfl, rfl, rfl, rfl⟩, fun hn => absurd h hn, rfl, rfl, rfl,
      by simp [h]⟩
  · exact ⟨fun hp => absurd hp h, fun _ => ⟨rfl, rfl, rfl, rfl⟩, rfl, rfl, rfl,
      by simp [h]⟩

/-- Witness of C7: a valid 100x100 drawable read after a granted read+write lock. -/
theorem HaikuGetRasInfo_fields_witness :
    (HaikuGetRasInfo (sampleDrawable 100 100) (grantedOps SD_LOCK_RD_WR)
        (requestRasInfo 0 0 50 50)).rasInfo.rasBase = 4096 ∧
    (HaikuGetRasInfo (sampleDrawable 100 100) (grantedOps SD_LOCK_RD_WR)
        (requestRasInfo 0 0 50 50)).rasInfo.pixelStride = 4 ∧
    (HaikuGetRasInfo (sampleDrawable 100 100) (grantedOps SD_LOCK_RD_WR)
        (requestRasInfo 0 0 50 50)).rasInfo.pixelBitOffset = 0 ∧
    (HaikuGetRasInfo (sampleDrawable 100 100) (grantedOps SD_LOCK_RD_WR)
        (requestRasInfo 0 0 50 50)).rasInfo.scanStride = 400 :=
  (HaikuGetRasInfo_fields (sampleDrawable 100 100) (grantedOps SD_LOCK_RD_WR)
    (requestRasInfo 0 0 50 50)).1 ⟨by decide, by decide⟩

/-! ## Claims about the recorded flags across calls -/

/-- C10: the recorded lock flags are written only by a successful `HaikuLock`.  A
`HaikuLock` that returns `SD_FAILURE`, every `HaikuGetRasInfo` and every `HaikuUnlock`
leave the operations record (its `lockflags` and `drawable` in particular) as it was;
`HaikuRelease` changes nothing and calls nothing; a successful `HaikuLock` changes
`lockflags` alone.  Hence over any sequence of callbacks without a successful lock the
record is unchanged, and the flags of the latest successful lock persist across
`Unlock` and later failed `Lock` calls. -/
theorem lockflags_written_only_by_successful_lock :
    (∀ (drawable : Drawable) (operations : HaikuWindowSurfaceDataOps)
        (rasInfo : SurfaceDataRasInfo) (lockflags : Int),
      (HaikuLock drawable operations rasInfo lockflags).result = SD_FAILURE →
      (HaikuLock drawable operations rasInfo lockflags).operations = operations) ∧
    (∀ (drawable : Drawable) (operations : HaikuWindowSurfaceDataOps)
        (rasInfo : SurfaceDataRasInfo) (lockflags : Int),
      (HaikuLock drawable operations rasInfo lockflags).result = SD_SUCCESS →
      (HaikuLock drawable operations rasInfo lockflags).operations =
        { operations with lockflags := lockflags }) ∧
    (∀ (drawable : Drawable) (operations : HaikuWindowSurfaceDataOps)
        (rasInfo : SurfaceDataRasInfo),
      (HaikuGetRasInfo drawable operations rasInfo).operations = operations) ∧
    (∀ (operations : HaikuWindowSurfaceDataOps) (rasInfo : SurfaceDataRasInfo),
      HaikuRelease operations rasInfo = ⟨operations, rasInfo, []⟩) ∧
    (∀ (operations : HaikuWindowSurfaceDataOps) (rasInfo : SurfaceDataRasInfo),
      (HaikuUnlock operations rasInfo).operations = operations ∧
      (HaikuUnlock operations rasInfo).rasInfo = rasInfo) ∧
    (∀ (s : SurfaceState) (cs : List Callback),
      noGrant s cs = true → (run s cs).operations = s.operations) ∧
    (∀ (s : SurfaceState) (drawable : Drawable) (lockflags : Int) (cs : List Callback),
      grants s (.Lock drawable lockflags) = true →
      noGrant (step s (.Lock drawable lockflags)) cs = true →
      (run s (.Lock drawable lockflags :: cs)).operations.lockflags = lockflags ∧
      (run s (.Lock drawable lockflags :: cs)).operations.drawable =
        s.operations.drawable) := by
  refine ⟨?_, ?_, ?_, ?_, ?_, ?_, ?_⟩
  · intro drawable operations rasInfo lockflags h
    apply HaikuLock_operations_of_failure
    rw [h]
    exact fun e => SD_SUCCESS_ne_SD_FAILURE e.symm
  · intro drawable operations rasInfo lockflags
    simp only [HaikuLock]
    split_ifs <;> simp [SD_SUCCESS, SD_FAILURE]
  · intro drawable operations rasInfo
    simp only [HaikuGetRasInfo]
    split_ifs <;> rfl
  · intro operations rasInfo
    rfl
  · intro operations rasInfo
    simp only [HaikuUnlock]
    split_ifs <;> exact ⟨rfl, rfl⟩
  · intro s cs h
    exact run_operations_of_noGrant cs s h
  · intro s drawable lockflags cs hg hn
    have h1 := run_operations_of_noGrant cs _ hn
    simp only [run, List.foldl_cons] at h1 ⊢
    rw [h1]
    simp only [grants, decide_eq_true_eq] at hg
    revert hg
    simp only [step, HaikuLock]
    split_ifs <;> simp [SD_SUCCESS, SD_FAILURE]

/-- Witness of C10: a read+write lock granted on a 100x100 drawable, then `Unlock`, a
`Lock` the drawable refuses, `GetRasInfo` and `Release`; the recorded flags are still
those of the granted lock. -/
theorem lockflags_written_only_by_successful_lock_witness :
    (run ⟨freshOps, requestRasInfo 0 0 10 10⟩
      [.Lock (sampleDrawable 100 100) SD_LOCK_RD_WR, .Unlock,
        .Lock { sampleDrawable 100 100 with Lock := false } SD_LOCK_READ,
        .GetRasInfo (sampleDrawable 100 100), .Release]).operations.lockflags =
      SD_LOCK_RD_WR ∧
    (run ⟨freshOps, requestRasInfo 0 0 10 10⟩
      [.Lock (sampleDrawable 100 100) SD_LOCK_RD_WR, .Unlock,
        .Lock { sampleDrawable 100 100 with Lock := false } SD_LOCK_READ,
        .GetRasInfo (sampleDrawable 100 100), .Release]).operations.drawable =
      freshOps.drawable :=
  lockflags_written_only_by_successful_lock.2.2.2.2.2.2 ⟨freshOps, requestRasInfo 0 0 10 10⟩
    (sampleDrawable 100 100) SD_LOCK_RD_WR
    [.Unlock, .Lock { sampleDrawable 100 100 with Lock := false } SD_LOCK_READ,
      .GetRasInfo (sampleDrawable 100 100), .Release]
    (by decide) (by decide)

/-- C3 (as stated) fails: after a granted read+write lock on a valid 100x100 drawable,
a `HaikuGetRasInfo` made after `HaikuUnlock`, or after a later `HaikuLock` that
returned `SD_FAILURE`, still reports the pixel address and the strides of the
drawable. -/
theorem GetRasInfo_after_unlock_counterexample :
    (HaikuLock (sampleDrawable 100 100) freshOps (requestRasInfo 0 0 10 10)
        SD_LOCK_RD_WR).result = SD_SUCCESS ∧
    (run ⟨freshOps, requestRasInfo 0 0 10 10⟩
      [.Lock (sampleDrawable 100 100) SD_LOCK_RD_WR, .Unlock,
        .GetRasInfo (sampleDrawable 100 100)]).rasInfo =
      { requestRasInfo 0 0 10 10 with rasBase := 4096, pixelStride := 4, scanStride := 400 } ∧
    (HaikuLock { sampleDrawable 100 100 with Lock := false }
        (run ⟨freshOps, requestRasInfo 0 0 10 10⟩
          [.Lock (sampleDrawable 100 100) SD_LOCK_RD_WR, .Unlock]).operations
        (run ⟨freshOps, requestRasInfo 0 0 10 10⟩
          [.Lock (sampleDrawable 100 100) SD_LOCK_RD_WR, .Unlock]).rasInfo
        SD_LOCK_RD_WR).result = SD_FAILURE ∧
    (run ⟨freshOps, requestRasInfo 0 0 10 10⟩
      [.Lock (sampleDrawable 100 100) SD_LOCK_RD_WR, .Unlock,
        .Lock { sampleDrawable 100 100 with Lock := false } SD_LOCK_RD_WR,
        .GetRasInfo (sampleDrawable 100 100)]).rasInfo.rasBase ≠ 0 ∧
    (run ⟨freshOps, requestRasInfo 0 0 10 10⟩
      [.Lock (sampleDrawable 100 100) SD_LOCK_RD_WR, .Unlock,
        .Lock { sampleDrawable 100 100 with Lock := false } SD_LOCK_RD_WR,
        .GetRasInfo (sampleDrawable 100 100)]).rasInfo.scanStride ≠ 0 := by
  decide

/-- C3 (amended): in any sequence of callbacks on one operations record, the
`HaikuGetRasInfo` call that follows a `HaikuUnlock`, or a `HaikuLock` that returned
`SD_FAILURE`, sets `rasBase` to `NULL` and the strides and bit offset to `0` whenever
the drawable is invalid at that call or the flags recorded before it have no read or
write bit; in particular whenever no earlier `HaikuLock` of the sequence succeeded and
the record started without a read or write bit. -/
theorem GetRasInfo_after_unlock_or_failed_lock (s : SurfaceState) (cs : List Callback)
    (c : Callback) (drawable : Drawable)
    (hc : c = .Unlock ∨ ∃ (d : Drawable) (lockflags : Int), c = .Lock d lockflags ∧
      (HaikuLock d (run s cs).operations (run s cs).rasInfo lockflags).result =
        SD_FAILURE) :
    ((drawable.IsValid = false ∨
        Int.land (run s cs).operations.lockflags SD_LOCK_RD_WR = 0) →
      (run s (cs ++ [c, .GetRasInfo drawable])).rasInfo.rasBase = 0 ∧
      (run s (cs ++ [c, .GetRasInfo drawable])).rasInfo.pixelStride = 0 ∧
      (run s (cs ++ [c, .GetRasInfo drawable])).rasInfo.pixelBitOffset = 0 ∧
      (run s (cs ++ [c, .GetRasInfo drawable])).rasInfo.scanStride = 0) ∧
    (noGrant s cs = true → Int.land s.operations.lockflags SD_LOCK_RD_WR = 0 →
      (run s (cs ++ [c, .GetRasInfo drawable])).rasInfo.rasBase = 0 ∧
      (run s (cs ++ [c, .GetRasInfo drawable])).rasInfo.pixelStride = 0 ∧
      (run s (cs ++ [c, .GetRasInfo drawable])).rasInfo.pixelBitOffset = 0 ∧
      (run s (cs ++ [c, .GetRasInfo drawable])).rasInfo.scanStride = 0) := by
  have hg : grants (run s cs) c = false := by
    rcases hc with rfl | ⟨d, lockflags, rfl, hr⟩
    · rfl
    · simp only [grants, decide_eq_false_iff_not, hr]
      exact fun e => SD_SUCCESS_ne_SD_FAILURE e.symm
  have hops : (step (run s cs) c).operations = (run s cs).operations :=
    step_operations_of_not_grants _ c hg
  have hrun : run s (cs ++ [c, .GetRasInfo drawable]) =
      step (step (run s cs) c) (.GetRasInfo drawable) := by
    rw [run_append]; rfl
  have hzero : (drawable.IsValid = false ∨
        Int.land (run s cs).operations.lockflags SD_LOCK_RD_WR = 0) →
      (run s (cs ++ [c, .GetRasInfo drawable])).rasInfo.rasBase = 0 ∧
      (run s (cs ++ [c, .GetRasInfo drawable])).rasInfo.pixelStride = 0 ∧
      (run s (cs ++ [c, .GetRasInfo drawable])).rasInfo.pixelBitOffset = 0 ∧
      (run s (cs ++ [c, .GetRasInfo drawable])).rasInfo.scanStride = 0 := by
    intro h
    rw [hrun]
    apply step_GetRasInfo_null
    rw [hops]
    exact h
  refine ⟨hzero, ?_⟩
  intro hn h0
  apply hzero
  right
  rw [run_operations_of_noGrant cs s hn]
  exact h0

/-- Witness of C3 (amended): on a fresh record, `HaikuUnlock` followed by
`HaikuGetRasInfo` on a valid 100x100 drawable reports the null/zero descriptor. -/
theorem GetRasInfo_after_unlock_or_failed_lock_witness :
    (run ⟨freshOps, requestRasInfo 0 0 10 10⟩
      ([] ++ [.Unlock, .GetRasInfo (sampleDrawable 100 100)])).rasInfo.rasBase = 0 ∧
    (run ⟨freshOps, requestRasInfo 0 0 10 10⟩
      ([] ++ [.Unlock, .GetRasInfo (sampleDrawable 100 100)])).rasInfo.pixelStride = 0 ∧
    (run ⟨freshOps, requestRasInfo 0 0 10 10⟩
      ([] ++ [.Unlock, .GetRasInfo (sampleDrawable 100 100)])).rasInfo.pixelBitOffset = 0 ∧
    (run ⟨freshOps, requestRasInfo 0 0 10 10⟩
      ([] ++ [.Unlock, .GetRasInfo (sampleDrawable 100 100)])).rasInfo.scanStride = 0 :=
  (GetRasInfo_after_unlock_or_failed_lock ⟨freshOps, requestRasInfo 0 0 10 10⟩ []
    .Unlock (sampleDrawable 100 100) (Or.inl rfl)).2 (by decide) (by decide)

end HaikuWindowSurfaceData
